import Mathlib

/-!
Verification of the Lua map exporter (`src/plugins/lua/luaplugin.cpp`).

The plugin walks a read-only map object graph and drives a `LuaTableWriter`.
The writer calls are well bracketed (`writeStartTable` / `writeEndTable`), so
the emitted document is modelled as a tree of `Item`s: each `write*` routine
of the C++ source is transcribed into a Lean function that returns the items
it writes, in call order.  The build configuration of the source file is the
one fixed at its top: `POLYGON_FORMAT_SEQUENCE`, `MOAI_LUA_DATA_FORMAT`,
`FIRST_IMAGE`, `FLATTEN_INTO_PARENT` defined, `ALL_IMAGES` undefined, and
`HAS_QSAVEFILE_SUPPORT` (Qt ≥ 5.1).

Collaborators that are not part of the source file (the `GidMapper`, the
text rendering of the table writer, `QSaveFile`, `QDir::relativeFilePath`)
are modelled from the spec; each such definition carries a doc comment
saying so.
-/

namespace TiledLua

/-- A scalar value handed to the table writer: the C++ overloads of
`writeKeyAndValue`/`writeValue` take strings, integers, doubles and booleans
(doubles are modelled as rationals). -/
inductive LuaVal where
  | s (v : String)
  | i (v : Int)
  | q (v : ℚ)
  | b (v : Bool)
deriving DecidableEq, Repr

/-- One emitted entry of a table.  `kv`/`qkv` are `writeKeyAndValue` /
`writeQuotedKeyAndValue`; `pos` is a positional `writeValue`; `tbl`, `qtbl`
and `anon` are tables opened with `writeStartTable(key)`,
`writeQuotedStartTable(key)` and `writeStartTable()` and closed with
`writeEndTable`, holding the entries written in between.  Newline control
(`setSuppressNewlines`, `prepareNewLine`) is pure formatting and carries no
structural content, so it is not recorded. -/
inductive Item where
  | kv (key : String) (v : LuaVal)
  | qkv (key : String) (v : LuaVal)
  | pos (v : LuaVal)
  | tbl (key : String) (items : List Item)
  | qtbl (key : String) (items : List Item)
  | anon (items : List Item)

/-! ## The map object model (read-only input of the exporter) -/

/-- A property bag (`Tiled::Properties`, a string-to-string map); `pairs`
lists the entries in the container's iteration order. -/
structure Properties where
  pairs : List (String × String)
deriving DecidableEq

/-- Transcribes `QMap::isEmpty` on a property bag. -/
def Properties.isEmpty (p : Properties) : Bool := p.pairs.isEmpty

/-- A `QColor`: validity flag, channels, and the `name()` string used when a
transparent color is emitted. -/
structure QColor where
  valid : Bool
  red : Int
  green : Int
  blue : Int
  alpha : Int
  name : String
deriving DecidableEq

/-- One step of a tile animation (`Tiled::Frame`). -/
structure Frame where
  tileId : Nat
  duration : Nat
deriving DecidableEq

/-- A cell's reference to a tile: the identity of its tileset (standing for
the `Tileset*` pointer) and the local tile index. -/
structure CellRef where
  tilesetId : Nat
  tileId : Nat
deriving DecidableEq

/-- A grid cell (`Tiled::Cell`): empty (`none`) or a tile reference.
Flip flags are not consumed by this exporter and are left out. -/
def Cell := Option CellRef

instance : DecidableEq Cell := inferInstanceAs (DecidableEq (Option CellRef))

/-- Transcribes `Cell::isEmpty`. -/
def Cell.isEmpty (c : Cell) : Bool := (c : Option CellRef).isNone

/-- The shape discriminator of a map object. -/
inductive Shape where
  | Rectangle
  | Polygon
  | Polyline
  | Ellipse
deriving DecidableEq

/-- A map object; coordinates and sizes are `qreal` in the source, modelled
as rationals. -/
structure MapObject where
  id : Nat
  name : String
  type : String
  shape : Shape
  x : ℚ
  y : ℚ
  width : ℚ
  height : ℚ
  rotation : ℚ
  cell : Cell
  visible : Bool
  polygon : List (ℚ × ℚ)
  properties : Properties
deriving DecidableEq

/-- An object group layer. -/
structure ObjectGroup where
  name : String
  visible : Bool
  opacity : ℚ
  properties : Properties
  objects : List MapObject
deriving DecidableEq

/-- A terrain of a tileset. -/
structure Terrain where
  name : String
  imageTileId : Int
  properties : Properties
deriving DecidableEq

/-- A tile of a tileset.  `terrain` is the packed terrain word with
`0xFFFFFFFF` as the "unset" sentinel; `corners` is the 4-corner terrain-id
vector behind `Tile::cornerTerrainId` (modelled from the spec, which
describes it as an optional 4-corner terrain-id vector — `tile.h` is not
among the sources); `terrainProbability` uses `-1` as its sentinel. -/
structure Tile where
  properties : Properties
  imageSource : String
  size : Nat × Nat
  objectGroup : Option ObjectGroup
  terrain : Nat
  corners : List Int
  terrainProbability : ℚ
  frames : List Frame
deriving DecidableEq

/-- Modelled from the spec: `Tile::cornerTerrainId(i)` yields the i-th entry
of the tile's 4-corner terrain-id vector. -/
def Tile.cornerTerrainId (t : Tile) (i : Nat) : Int := t.corners.getD i (-1)

/-- Modelled from the spec: `Tile::isAnimated` holds exactly when the tile's
animation-frame sequence is non-empty. -/
def Tile.isAnimated (t : Tile) : Bool := !t.frames.isEmpty

/-- A tile with none of the optional attributes set. -/
def emptyTile : Tile :=
  { properties := ⟨[]⟩, imageSource := "", size := (0, 0), objectGroup := none,
    terrain := 0xFFFFFFFF, corners := [], terrainProbability := -1, frames := [] }

/-- A tileset.  `id` stands for the `Tileset*` pointer identity used by
cells and by the GID mapper. -/
structure Tileset where
  id : Nat
  name : String
  tileWidth : Nat
  tileHeight : Nat
  tileSpacing : Nat
  margin : Nat
  fileName : String
  imageSource : String
  imageWidth : Nat
  imageHeight : Nat
  transparentColor : QColor
  tileOffset : Int × Int
  properties : Properties
  terrains : List Terrain
  tiles : List Tile
deriving DecidableEq

/-- Transcribes `Tileset::tileCount`. -/
def Tileset.tileCount (ts : Tileset) : Nat := ts.tiles.length

/-- Modelled from the spec: `Tileset::tileAt(i)` is the i-th tile of the
tileset (`tileset.h` is not among the sources); an out-of-range index, for
which the C++ has no defined behaviour, yields a tile with no attributes. -/
def Tileset.tileAt (ts : Tileset) (i : Nat) : Tile := ts.tiles.getD i emptyTile

/-- A tileset with no content, used as the `getD` fallback. -/
def emptyTileset : Tileset :=
  { id := 0, name := "", tileWidth := 0, tileHeight := 0, tileSpacing := 0,
    margin := 0, fileName := "", imageSource := "", imageWidth := 0,
    imageHeight := 0,
    transparentColor := ⟨false, 0, 0, 0, 255, ""⟩, tileOffset := (0, 0),
    properties := ⟨[]⟩, terrains := [], tiles := [] }

/-- A tile layer.  `cells` is the grid in row-major order
(`cellAt x y = cells[y][x]`).  `usedTilesets` records the iteration order of
the `QSet<Tileset*>` returned by `TileLayer::usedTilesets()` — a set of the
tilesets referenced by the grid, in the implementation-defined order the
exporting process iterates it. -/
structure TileLayer where
  name : String
  x : Int
  y : Int
  width : Nat
  height : Nat
  visible : Bool
  opacity : ℚ
  properties : Properties
  cells : List (List Cell)
  usedTilesets : List Tileset
deriving DecidableEq

/-- Transcribes `TileLayer::cellAt(x, y)`. -/
def TileLayer.cellAt (tl : TileLayer) (x y : Nat) : Cell :=
  (tl.cells.getD y []).getD x (none : Option CellRef)

/-- An image layer. -/
structure ImageLayer where
  name : String
  x : Int
  y : Int
  visible : Bool
  opacity : ℚ
  imageSource : String
  transparentColor : QColor
  properties : Properties
deriving DecidableEq

/-- The polymorphic layer list entry, discriminated as in
`Layer::layerType()`. -/
inductive Layer where
  | tile (tl : TileLayer)
  | objects (og : ObjectGroup)
  | image (il : ImageLayer)
deriving DecidableEq

/-- Map orientation (`Map::Orientation`). -/
inductive Orientation where
  | Orthogonal
  | Isometric
  | Staggered
  | Hexagonal
deriving DecidableEq

/-- Modelled from the spec: `orientationToString` (from `map.h`, not among
the sources) names the four orientations. -/
def orientationToString : Orientation → String
  | .Orthogonal => "orthogonal"
  | .Isometric => "isometric"
  | .Staggered => "staggered"
  | .Hexagonal => "hexagonal"

/-- Stagger axis of a staggered/hexagonal map. -/
inductive StaggerAxis where
  | X
  | Y
deriving DecidableEq

/-- Modelled from the spec: `staggerAxisToString` (from `map.h`). -/
def staggerAxisToString : StaggerAxis → String
  | .X => "x"
  | .Y => "y"

/-- Stagger index of a staggered/hexagonal map. -/
inductive StaggerIndex where
  | Odd
  | Even
deriving DecidableEq

/-- Modelled from the spec: `staggerIndexToString` (from `map.h`). -/
def staggerIndexToString : StaggerIndex → String
  | .Odd => "odd"
  | .Even => "even"

/-- The map: the root of the exported object graph. -/
structure Map where
  orientation : Orientation
  width : Nat
  height : Nat
  tileWidth : Nat
  tileHeight : Nat
  hexSideLength : Int
  staggerAxis : StaggerAxis
  staggerIndex : StaggerIndex
  backgroundColor : QColor
  nextObjectId : Nat
  properties : Properties
  tilesets : List Tileset
  layers : List Layer
deriving DecidableEq

/-! ## The GID mapper

`gidmapper.h`/`gidmapper.cpp` are not among the sources; the mapper is
modelled from the spec (§4.2): it records, per registered tileset, the
first flattened id of its range. -/

/-- Modelled from the spec: the GID mapper's table of registered tilesets,
as `(firstGid, tileset identity)` pairs in registration order. -/
structure GidMapper where
  entries : List (Nat × Nat)
deriving DecidableEq

/-- Modelled from the spec: `GidMapper::clear` empties the table. -/
def GidMapper.clear (_ : GidMapper) : GidMapper := ⟨[]⟩

/-- Modelled from the spec: `GidMapper::insert(firstGid, tileset)` records
that the tileset's tiles occupy the range starting at `firstGid`. -/
def GidMapper.insert (m : GidMapper) (firstGid : Nat) (tilesetId : Nat) :
    GidMapper := ⟨m.entries ++ [(firstGid, tilesetId)]⟩

/-- Modelled from the spec: `GidMapper::cellToGid` returns 0 for an empty
cell, `firstGid(cell.tileset) + cell.localId` for a registered tileset, and
the sentinel 0 when the cell's tileset was never registered. -/
def GidMapper.cellToGid (m : GidMapper) (c : Cell) : Nat :=
  match (c : Option CellRef) with
  | none => 0
  | some r =>
    match m.entries.find? (fun e => e.2 == r.tilesetId) with
    | some e => e.1 + r.tileId
    | none => 0

/-- Modelled from the spec: `GidMapper::cellToGidOrigin` is the
tileset-relative variant — 0 for an empty cell, otherwise the flattened id
computed as if the cell's tileset started at 1, i.e. `cell.localId + 1`
(consistent with the source's use `tileset->tileAt(tileId - 1)`). -/
def GidMapper.cellToGidOrigin (_ : GidMapper) (c : Cell) : Nat :=
  match (c : Option CellRef) with
  | none => 0
  | some r => r.tileId + 1

/-! ## The serializer

Each `LuaPlugin::write*` routine is transcribed into a function that
returns the items it emits, in call order.  The `rel` parameter models
`mMapDir.relativeFilePath(...)`: the Qt path rewriter determined by the
directory of the output file (`mMapDir` is set from `fileName` at the top
of `LuaPlugin::write`); it is an external collaborator, so it is kept
abstract as a function argument. -/

/-- Transcribes the `.split("/").takeLast()` step applied to relative image
paths in the MOAI format. -/
def takeLastSlash (s : String) : String := (s.splitOn "/").getLastD s

/-- Transcribes `LuaPlugin::writeProperties`. -/
def writeProperties (properties : Properties) : Item :=
  .tbl "properties"
    (properties.pairs.map (fun p => .qkv p.1 (.s p.2)))

/-- Transcribes the static `includeTile` predicate. -/
def includeTile (tile : Tile) : Bool :=
  if !tile.properties.isEmpty then true
  else if ¬tile.imageSource = "" then true
  else if tile.objectGroup.isSome then true
  else if tile.isAnimated then true
  else if ¬tile.terrain = 0xFFFFFFFF then true
  else if ¬tile.terrainProbability = -1 then true
  else false

/-- Transcribes `toString(MapObject::Shape)`. -/
def shapeToString : Shape → String
  | .Rectangle => "rectangle"
  | .Polygon => "polygon"
  | .Polyline => "polyline"
  | .Ellipse => "ellipse"

/-- Models the cast of a `qreal` polygon coordinate to `unsigned int` in the
`POLYGON_FORMAT_SEQUENCE` branch of `writeMapObject`.  For the nonnegative
in-range coordinates on which the C++ conversion is defined this is the
integer truncation of the coordinate (for such values truncation and floor
coincide); on negative inputs the C++ conversion has no defined behaviour. -/
def coordToInt (c : ℚ) : Int := c.num / (c.den : Int)

/-- The entries of the polygon/polyline coordinate-sequence table: the flat
positional sequence x0, y0, x1, y1, ... of cast coordinates. -/
def polygonItems (polygon : List (ℚ × ℚ)) : List Item :=
  polygon.flatMap (fun p => [.pos (.i (coordToInt p.1)), .pos (.i (coordToInt p.2))])

/-- The entries written by `LuaPlugin::writeMapObject` between its
`writeStartTable` and `writeEndTable`. -/
def mapObjectItems (_rel : String → String) (m : GidMapper) (o : MapObject) :
    List Item :=
  [Item.kv "name" (.s o.name), Item.kv "type" (.s o.type),
   Item.kv "shape" (.s (shapeToString o.shape)),
   Item.kv "x" (.q o.x), Item.kv "y" (.q o.y),
   Item.kv "width" (.q o.width), Item.kv "height" (.q o.height),
   Item.kv "rotation" (.q o.rotation)]
  ++ (if !o.cell.isEmpty then [Item.kv "gid" (.i (m.cellToGid o.cell))] else [])
  ++ [Item.kv "visible" (.b o.visible)]
  ++ (if !o.polygon.isEmpty then
        [Item.tbl (if o.shape = Shape.Polygon then "polygon" else "polyline")
          (polygonItems o.polygon)]
      else [])
  ++ [writeProperties o.properties]

/-- Transcribes `LuaPlugin::writeMapObject` (note `rel` is unused there:
with `MOAI_LUA_DATA_FORMAT` the object's `id` key is not written and no
path is emitted, but the parameter is kept to mirror the call chain). -/
def writeMapObject (rel : String → String) (m : GidMapper) (o : MapObject) :
    Item :=
  .anon (mapObjectItems rel m o)

/-- The entries written by `LuaPlugin::writeObjectGroup` (MOAI variant:
the table is keyed by the group's name, `prio` is written only when
non-zero, and the `key` argument is unused). -/
def objectGroupItems (rel : String → String) (m : GidMapper) (prio : Nat)
    (og : ObjectGroup) : List Item :=
  (if ¬prio = 0 then [Item.kv "prio" (.i prio)] else [])
  ++ [Item.kv "type" (.s "objectgroup"),
      Item.kv "visible" (.b og.visible),
      Item.kv "opacity" (.q og.opacity),
      writeProperties og.properties,
      Item.tbl "objects" (og.objects.map (fun o => writeMapObject rel m o))]

/-- Transcribes `LuaPlugin::writeObjectGroup`. -/
def writeObjectGroup (rel : String → String) (m : GidMapper) (prio : Nat)
    (og : ObjectGroup) (_key : String) : Item :=
  .qtbl og.name (objectGroupItems rel m prio og)

/-- The animation-frame table entry of a tile. -/
def frameItem (f : Frame) : Item :=
  .anon [Item.kv "tileid" (.s (toString f.tileId)),
         Item.kv "duration" (.s (toString f.duration))]

/-- The tile sub-table written inside the `tiles` loop of
`LuaPlugin::writeTileset` for the tile of local index `i`. -/
def tileItem (rel : String → String) (m : GidMapper) (i : Nat) (tile : Tile) :
    Item :=
  .qtbl (s!"id = {i + 1}")
    ((if !tile.properties.isEmpty then [writeProperties tile.properties] else [])
     ++ (if ¬tile.imageSource = "" then
           [Item.kv "image" (.s (rel tile.imageSource))]
           ++ (if ¬(tile.size.1 = 0 ∧ tile.size.2 = 0) then
                 [Item.kv "width" (.i tile.size.1),
                  Item.kv "height" (.i tile.size.2)]
               else [])
         else [])
     ++ (if ¬tile.terrain = 0xFFFFFFFF then
           [Item.tbl "terrain"
              ((List.range 4).map (fun k => Item.pos (.i (tile.cornerTerrainId k))))]
         else [])
     ++ (if ¬tile.terrainProbability = -1 then
           [Item.kv "probability" (.q tile.terrainProbability)]
         else [])
     ++ (match tile.objectGroup with
         | some og => [writeObjectGroup rel m 0 og "objectGroup"]
         | none => [])
     ++ (if tile.isAnimated then
           [Item.tbl "animation" (tile.frames.map frameItem)]
         else []))

/-- The entries of the `tiles` sub-table of a tileset: the loop over
`tileAt(0) .. tileAt(tileCount - 1)` with the `includeTile` filter
(`continue` skips a tile entirely). -/
def tilesItems (rel : String → String) (m : GidMapper) (ts : Tileset) :
    List Item :=
  (ts.tiles.enum.filter (fun p => includeTile p.2)).map
    (fun p => tileItem rel m p.1 p.2)

/-- The terrain sub-table written inside the `terrains` loop. -/
def terrainItem (t : Terrain) : Item :=
  .anon [Item.kv "name" (.s t.name), Item.kv "tile" (.i t.imageTileId),
         writeProperties t.properties]

/-- The entries written by `LuaPlugin::writeTileset` inside the tileset's
table (MOAI variant: no `firstgid` key, no `image` key, deck dimensions,
offsets flattened into the parent by `FLATTEN_INTO_PARENT`). -/
def tilesetBody (rel : String → String) (m : GidMapper) (ts : Tileset) :
    List Item :=
  [Item.kv "name" (.s ts.name)]
  ++ (if ¬ts.fileName = "" then
        [Item.kv "filename" (.s (rel ts.fileName))]
      else [])
  ++ [Item.kv "tilewidth" (.i ts.tileWidth),
      Item.kv "tileheight" (.i ts.tileHeight),
      Item.kv "spacing" (.i ts.tileSpacing),
      Item.kv "margin" (.i ts.margin)]
  ++ (if ¬ts.imageSource = "" then
        [Item.kv "imagewidth" (.i ts.imageWidth),
         Item.kv "imageheight" (.i ts.imageHeight),
         Item.kv "deckwidth" (.i (ts.imageWidth / ts.tileWidth)),
         Item.kv "deckheight" (.i (ts.imageHeight / ts.tileHeight))]
      else [])
  ++ (if ts.transparentColor.valid then
        [Item.kv "transparentcolor" (.s ts.transparentColor.name)]
      else [])
  ++ [Item.kv "xoffset" (.i ts.tileOffset.1),
      Item.kv "yoffset" (.i ts.tileOffset.2)]
  ++ [writeProperties ts.properties]
  ++ [Item.tbl "terrains" (ts.terrains.map terrainItem)]
  ++ [Item.tbl "tiles" (tilesItems rel m ts)]

/-- Transcribes `LuaPlugin::writeTileset` (the `firstGid` argument is unused
in the MOAI format, which keys the table by the basename of the tileset's
image instead of writing a `firstgid` entry). -/
def writeTileset (rel : String → String) (m : GidMapper) (ts : Tileset)
    (_firstGid : Nat) : Item :=
  if ¬ts.imageSource = "" then
    .qtbl (takeLastSlash (rel ts.imageSource)) (tilesetBody rel m ts)
  else
    .anon (tilesetBody rel m ts)

/-- The `FIRST_IMAGE` part of `writeTileLayer`: when the layer uses exactly
one tileset, an `image` key with the basename of that tileset's image. -/
def imagePart (rel : String → String) (tl : TileLayer) : List Item :=
  match tl.usedTilesets with
  | [ts] => [Item.kv "image" (.s (takeLastSlash (rel ts.imageSource)))]
  | _ => []

/-- The body of the `specialtiles` scan for one cell: the first tileset of
the used-tileset iteration order whose tile at index `tileId - 1` has
non-empty properties triggers an entry (the inner `foreach` with `break`),
where `tileId` is the cell's tileset-relative flattened id. -/
def specialEntry (m : GidMapper) (tl : TileLayer) (y x : Nat) : Option Item :=
  let tileId := m.cellToGidOrigin (tl.cellAt x y)
  match tl.usedTilesets.find?
      (fun ts => decide (0 < tileId) && !(ts.tileAt (tileId - 1)).properties.isEmpty) with
  | some _ => some (.qtbl (s!"y = {y + 1}, x = {x + 1}")
                     [Item.kv "id" (.i tileId)])
  | none => none

/-- All `specialtiles` entries, in the scan order of the nested loops
(row-major). -/
def specialItems (m : GidMapper) (tl : TileLayer) : List Item :=
  (List.range tl.height).flatMap
    (fun y => (List.range tl.width).filterMap (fun x => specialEntry m tl y x))

/-- The `specialtiles` table: opened at the first entry
(`authorizeWriteTable`), hence omitted entirely when no entry exists. -/
def specialPart (m : GidMapper) (tl : TileLayer) : List Item :=
  if (specialItems m tl).isEmpty then []
  else [Item.tbl "specialtiles" (specialItems m tl)]

/-- One row sub-table of the `data` grid: the loop writes the 1-based row
index first (`writer.writeValue(y + 1)`), then the tileset-relative
flattened id of every cell of the row in column order. -/
def dataRow (m : GidMapper) (tl : TileLayer) (y : Nat) : Item :=
  .anon (Item.pos (.i (y + 1 : Int)) ::
    (List.range tl.width).map
      (fun x => Item.pos (.i (m.cellToGidOrigin (tl.cellAt x y)))))

/-- The dense `data` table: one row sub-table per grid row. -/
def dataPart (m : GidMapper) (tl : TileLayer) : Item :=
  .tbl "data" ((List.range tl.height).map (fun y => dataRow m tl y))

/-- The entries written by `LuaPlugin::writeTileLayer` before the
`specialtiles` scan (MOAI variant). -/
def tileLayerHeader (rel : String → String) (prio : Nat) (tl : TileLayer) :
    List Item :=
  [Item.kv "prio" (.i prio), Item.kv "type" (.s "tilelayer")]
  ++ imagePart rel tl
  ++ [Item.kv "x" (.i tl.x), Item.kv "y" (.i tl.y),
      Item.kv "width" (.i tl.width), Item.kv "height" (.i tl.height),
      Item.kv "visible" (.b tl.visible), Item.kv "opacity" (.q tl.opacity),
      writeProperties tl.properties,
      Item.kv "encoding" (.s "lua")]

/-- The entries written by `LuaPlugin::writeTileLayer` inside the layer's
table (MOAI variant): the header, then the optional `specialtiles` table,
then the dense `data` table. -/
def tileLayerItems (rel : String → String) (m : GidMapper) (prio : Nat)
    (tl : TileLayer) : List Item :=
  tileLayerHeader rel prio tl
  ++ specialPart m tl
  ++ [dataPart m tl]

/-- Transcribes `LuaPlugin::writeTileLayer`. -/
def writeTileLayer (rel : String → String) (m : GidMapper) (prio : Nat)
    (tl : TileLayer) : Item :=
  .qtbl tl.name (tileLayerItems rel m prio tl)

/-- The entries written by `LuaPlugin::writeImageLayer` (MOAI variant). -/
def imageLayerItems (rel : String → String) (prio : Nat) (il : ImageLayer) :
    List Item :=
  [Item.kv "prio" (.i prio), Item.kv "type" (.s "imagelayer"),
   Item.kv "x" (.i il.x), Item.kv "y" (.i il.y),
   Item.kv "visible" (.b il.visible), Item.kv "opacity" (.q il.opacity),
   Item.kv "image" (.s (rel il.imageSource))]
  ++ (if il.transparentColor.valid then
        [Item.kv "transparentcolor" (.s il.transparentColor.name)]
      else [])
  ++ [writeProperties il.properties]

/-- Transcribes `LuaPlugin::writeImageLayer`. -/
def writeImageLayer (rel : String → String) (prio : Nat) (il : ImageLayer) :
    Item :=
  .qtbl il.name (imageLayerItems rel prio il)

/-- The layer loop of `writeMap`: dispatch on the layer type, incrementing
the 1-based `prio` counter after every layer. -/
def writeLayers (rel : String → String) (m : GidMapper) :
    List Layer → Nat → List Item
  | [], _ => []
  | l :: rest, prio =>
    (match l with
     | .tile tl => writeTileLayer rel m prio tl
     | .objects og => writeObjectGroup rel m prio og ""
     | .image il => writeImageLayer rel prio il)
    :: writeLayers rel m rest (prio + 1)

/-- The tileset loop of `writeMap`, items half: each tileset is written with
the mapper as registered so far (the source calls `writeTileset` before
`mGidMapper.insert`), then the running `firstGid` advances by the tileset's
tile count. -/
def tilesetsItems (rel : String → String) :
    List Tileset → GidMapper → Nat → List Item
  | [], _, _ => []
  | ts :: rest, m, firstGid =>
    writeTileset rel m ts firstGid
    :: tilesetsItems rel rest (m.insert firstGid ts.id) (firstGid + ts.tileCount)

/-- The tileset loop of `writeMap`, mapper half: the mapper state after all
registrations. -/
def registerTilesets : List Tileset → GidMapper → Nat → GidMapper
  | [], m, _ => m
  | ts :: rest, m, firstGid =>
    registerTilesets rest (m.insert firstGid ts.id) (firstGid + ts.tileCount)

/-- The mapper used when the layers are emitted: the instance's mapper is
cleared at the start of the tileset pass and every tileset is registered
(starting at firstGid 1) before the `layers` table is written. -/
def finalGidMapper (map : Map) (m0 : GidMapper) : GidMapper :=
  registerTilesets map.tilesets (GidMapper.clear m0) 1

/-- The `backgroundcolor` part of `writeMap`: present only for a valid
color, with the alpha channel appended only when it differs from 255. -/
def backgroundPart (c : QColor) : List Item :=
  if c.valid then
    [Item.tbl "backgroundcolor"
      ([Item.pos (.i c.red), Item.pos (.i c.green), Item.pos (.i c.blue)]
       ++ (if ¬c.alpha = 255 then [Item.pos (.i c.alpha)] else []))]
  else []

/-- The entries of the top-level return table written by
`LuaPlugin::writeMap` (MOAI variant: `cellwidth`/`cellheight` instead of
`tilewidth`/`tileheight`).  `appv` is the host application's version string
(`QCoreApplication::applicationVersion()`), `m0` the exporter instance's
mapper state on entry — cleared before the tileset pass. -/
def mapItems (rel : String → String) (appv : String) (m0 : GidMapper)
    (map : Map) : List Item :=
  [Item.kv "version" (.s "1.1"), Item.kv "luaversion" (.s "5.1"),
   Item.kv "tiledversion" (.s appv),
   Item.kv "orientation" (.s (orientationToString map.orientation)),
   Item.kv "width" (.i map.width), Item.kv "height" (.i map.height),
   Item.kv "cellwidth" (.i map.tileWidth),
   Item.kv "cellheight" (.i map.tileHeight),
   Item.kv "nextobjectid" (.i map.nextObjectId)]
  ++ (if map.orientation = Orientation.Hexagonal then
        [Item.kv "hexsidelength" (.i map.hexSideLength)]
      else [])
  ++ (if map.orientation = Orientation.Staggered ∨
        map.orientation = Orientation.Hexagonal then
        [Item.kv "staggeraxis" (.s (staggerAxisToString map.staggerAxis)),
         Item.kv "staggerindex" (.s (staggerIndexToString map.staggerIndex))]
      else [])
  ++ backgroundPart map.backgroundColor
  ++ [writeProperties map.properties]
  ++ [Item.tbl "tilesets"
        (tilesetsItems rel map.tilesets (GidMapper.clear m0) 1)]
  ++ [Item.tbl "layers" (writeLayers rel (finalGidMapper map m0) map.layers 1)]

/-! ## Text rendering and the top-level `write`

`luatablewriter.cpp` is not among the sources; the rendering below is
modelled from the spec's output grammar (§4.1/§6) as a deterministic
function of the emitted structure.  Exact spacing is immaterial to the
claims, which concern equality and difference of whole documents. -/

/-- Modelled from the spec: the text of one scalar value — numbers as
decimal literals, booleans as `true`/`false`, strings double-quoted with
backslash/quote escaping. -/
def renderVal : LuaVal → String
  | .s v => "\"" ++ String.join (v.toList.map (fun c =>
      if c = '\\' then "\\\\"
      else if c = '"' then "\\\""
      else String.singleton c)) ++ "\""
  | .i n => toString n
  | .q v => toString v
  | .b v => if v then "true" else "false"

mutual

/-- Modelled from the spec: the text of one table entry (every entry is
comma-terminated; quoted keys are bracketed). -/
def renderItem : Item → String
  | .kv k v => k ++ " = " ++ renderVal v ++ ",\n"
  | .qkv k v => "[\"" ++ k ++ "\"] = " ++ renderVal v ++ ",\n"
  | .pos v => renderVal v ++ ",\n"
  | .tbl k its => k ++ " = \x7b\n" ++ renderItems its ++ "\x7d,\n"
  | .qtbl k its => "[\"" ++ k ++ "\"] = \x7b\n" ++ renderItems its ++ "\x7d,\n"
  | .anon its => "\x7b\n" ++ renderItems its ++ "\x7d,\n"

/-- Modelled from the spec: the concatenated text of a list of entries. -/
def renderItems : List Item → String
  | [] => ""
  | it :: rest => renderItem it ++ renderItems rest

end

/-- Modelled from the spec: the whole document — the top-level table
assigned as the module's return value (`writeStartDocument`,
`writeStartReturnTable`, the entries, `writeEndDocument`). -/
def renderDocument (items : List Item) : String :=
  "return \x7b\n" ++ renderItems items ++ "\x7d\n"

/-- The exporter instance's state across `write` calls: the error string
behind `errorString()` and the member GID mapper. -/
structure PluginState where
  mError : String
  mGidMapper : GidMapper

/-- Modelled from the spec: the outcome of the host I/O for one export —
whether the destination opens, whether a device error is pending after the
document is written (`file.error()`), and whether the atomic commit
succeeds, with the device's error strings. -/
structure IOOutcome where
  openOk : Bool
  writeError : Option String
  commitOk : Bool
  commitErrorString : String

/-- Transcribes `LuaPlugin::write` (with `HAS_QSAVEFILE_SUPPORT`): open the
`QSaveFile`, write the document, check the device error, commit.  The last
component is the content of the output file afterwards: `QSaveFile` is
modelled from the spec's atomic-commit contract — all output goes to a
temporary that replaces `prev` only on a successful commit and is discarded
on every failure path. -/
def LuaPlugin.write (rel : String → String) (appv : String) (io : IOOutcome)
    (st : PluginState) (map : Map) (prev : Option String) :
    Bool × PluginState × Option String :=
  if !io.openOk then
    (false, ⟨"Could not open file for writing.", st.mGidMapper⟩, prev)
  else
    let doc := renderDocument (mapItems rel appv st.mGidMapper map)
    let m1 := finalGidMapper map st.mGidMapper
    match io.writeError with
    | some e => (false, ⟨e, m1⟩, prev)
    | none =>
      if io.commitOk then (true, ⟨st.mError, m1⟩, some doc)
      else (false, ⟨io.commitErrorString, m1⟩, prev)

/-! ## Extractors

Small total functions used to state the claims against the emitted
structure. -/

/-- The first sub-table opened with the bare key `k` among a list of
entries (top level only). -/
def findTbl (k : String) : List Item → Option (List Item)
  | [] => none
  | .tbl k' its :: rest => if k' = k then some its else findTbl k rest
  | _ :: rest => findTbl k rest

/-- The entries of a table item. -/
def itemsOf : Item → List Item
  | .tbl _ its => its
  | .qtbl _ its => its
  | .anon its => its
  | _ => []

/-- The integer payloads of the positional entries of a list. -/
def posInts (items : List Item) : List Int :=
  items.filterMap (fun it => match it with
    | .pos (.i n) => some n
    | _ => none)

/-- The rows of a `data` table, as lists of integers. -/
def dataValues (items : List Item) : Option (List (List Int)) :=
  (findTbl "data" items).map (fun rows => rows.map (fun r => posInts (itemsOf r)))

/-- The quoted keys of the sub-tables of a list (used on the entries of a
`specialtiles` table). -/
def quotedKeys (items : List Item) : List String :=
  items.filterMap (fun it => match it with
    | .qtbl k _ => some k
    | _ => none)

/-- Whether a list of entries contains a sub-table with the bare key
`properties`. -/
def hasPropsTbl (items : List Item) : Bool :=
  items.any (fun it => match it with
    | .tbl k _ => k == "properties"
    | _ => false)

/-- Whether a list of entries contains a `writeKeyAndValue` entry with the
given key. -/
def hasKey (k : String) (items : List Item) : Bool :=
  items.any (fun it => match it with
    | .kv k' _ => k' == k
    | _ => false)

/-- The position of the first sub-table with bare key `k` in a list of
entries. -/
def tblIdx (k : String) (items : List Item) : Option Nat :=
  items.findIdx? (fun it => match it with
    | .tbl k' _ => k' == k
    | _ => false)

/-! ## Concrete fixtures used by witnesses and counterexamples -/

/-- The identity path rewriter (a destination directory for which every
referenced path is already relative). -/
def relc : String → String := fun s => s

/-- An empty GID mapper. -/
def gm0 : GidMapper := ⟨[]⟩

/-- A map object with default attributes (rectangle at the origin, no cell,
no polygon, no properties). -/
def baseObject : MapObject :=
  { id := 1, name := "", type := "", shape := Shape.Rectangle,
    x := 0, y := 0, width := 0, height := 0, rotation := 0,
    cell := (none : Option CellRef), visible := true, polygon := [],
    properties := ⟨[]⟩ }

/-- A one-tile tileset (tileset identity 0) whose single tile has no
special attributes, as in the spec's 2×1 scenario. -/
def tsC1 : Tileset :=
  { emptyTileset with
    id := 0
    name := "ts"
    tileWidth := 32
    tileHeight := 32
    imageSource := "tiles.png"
    imageWidth := 32
    imageHeight := 32
    tiles := [emptyTile] }

/-- A GID mapper with `tsC1` registered at firstGid 1. -/
def mC1 : GidMapper := ⟨[(1, 0)]⟩

/-- The 2×1 tile layer of the spec's scenario: cells `[gid=1, gid=0]`. -/
def tlC1 : TileLayer :=
  { name := "layer", x := 0, y := 0, width := 2, height := 1,
    visible := true, opacity := 1, properties := ⟨[]⟩,
    cells := [[some ⟨0, 0⟩, (none : Option CellRef)]],
    usedTilesets := [tsC1] }

/-! ## General lemmas about the extractors -/

theorem findTbl_append (k : String) (xs ys : List Item) :
    findTbl k (xs ++ ys) = (findTbl k xs).or (findTbl k ys) := by
  induction xs with
  | nil => simp [findTbl]
  | cons it rest ih =>
    cases it with
    | tbl k' its =>
      by_cases h : k' = k
      · simp [findTbl, h]
      · simp [findTbl, h, ih]
    | kv key v => simpa [findTbl] using ih
    | qkv key v => simpa [findTbl] using ih
    | pos v => simpa [findTbl] using ih
    | qtbl key its => simpa [findTbl] using ih
    | anon its => simpa [findTbl] using ih

/-! ## C10 -/

/-- C10: the `backgroundcolor` sub-table of the map is emitted exactly when
the map's background color is valid, holding the red, green and blue
channels, with the alpha channel appended as a fourth positional element
only when it differs from 255. -/
theorem C10_backgroundcolor (rel : String → String) (appv : String)
    (m0 : GidMapper) (map : Map) :
    findTbl "backgroundcolor" (mapItems rel appv m0 map) =
      (if map.backgroundColor.valid then
        some ([Item.pos (.i map.backgroundColor.red),
               Item.pos (.i map.backgroundColor.green),
               Item.pos (.i map.backgroundColor.blue)]
              ++ (if ¬map.backgroundColor.alpha = 255 then
                    [Item.pos (.i map.backgroundColor.alpha)]
                  else []))
      else none) := by
  simp only [mapItems, findTbl_append, backgroundPart, writeProperties]
  split_ifs <;> simp_all [findTbl]

/-! ## C1 -/

/-- C1 counterexample: in the spec's 2×1 scenario (one 1-tile tileset
registered at firstGid 1, cells `[gid=1, gid=0]`), the single row sub-table
of the emitted `data` table is not `{1, 0}`: the loop writes the 1-based
row index as the first positional element (`writer.writeValue(y + 1)`), so
the row reads `{1, 1, 0}`. -/
theorem C1_cex :
    dataValues (tileLayerItems relc mC1 1 tlC1) ≠ some [[1, 0]] := by
  decide

/-- C1 as amended: the `data` table of a tile layer holds exactly one
sub-table per grid row, rows in order; each row sub-table is the 1-based
row index followed by the row's tileset-relative flattened tile ids
(`cellToGidOrigin`, 0 for an empty cell) in column order. -/
theorem C1_data_rows (rel : String → String) (m : GidMapper) (prio : Nat)
    (tl : TileLayer) :
    findTbl "data" (tileLayerItems rel m prio tl) =
      some ((List.range tl.height).map (fun (y : Nat) =>
        Item.anon (Item.pos (.i ((y : Int) + 1)) ::
          (List.range tl.width).map (fun x =>
            Item.pos (.i (m.cellToGidOrigin (tl.cellAt x y))))))) := by
  simp only [tileLayerItems, tileLayerHeader, findTbl_append, imagePart,
    specialPart, writeProperties, dataPart, dataRow]
  repeat' split
  all_goals simp [findTbl]

/-! ## C2 -/

/-- The claim's characterization of the registration table: in map order,
each tileset paired with a running firstGid that starts at the given value
and advances by the tileset's tile count. -/
def firstGidEntries : List Tileset → Nat → List (Nat × Nat)
  | [], _ => []
  | ts :: rest, g => (g, ts.id) :: firstGidEntries rest (g + ts.tileCount)

theorem registerTilesets_entries (ts : List Tileset) (m : GidMapper) (g : Nat) :
    (registerTilesets ts m g).entries = m.entries ++ firstGidEntries ts g := by
  induction ts generalizing m g with
  | nil => simp [registerTilesets, firstGidEntries]
  | cons t rest ih =>
    simp [registerTilesets, firstGidEntries, ih, GidMapper.insert]

theorem firstGidEntries_fst_getD_zero (ts : List Tileset) (g : Nat)
    (h : ts ≠ []) : ((firstGidEntries ts g).map Prod.fst).getD 0 0 = g := by
  cases ts with
  | nil => exact absurd rfl h
  | cons t rest => simp [firstGidEntries]

theorem firstGidEntries_fst_getD_succ (ts : List Tileset) (g : Nat) (i : Nat)
    (h : i + 1 < ts.length) :
    ((firstGidEntries ts g).map Prod.fst).getD (i + 1) 0 =
      ((firstGidEntries ts g).map Prod.fst).getD i 0 +
        (ts.getD i emptyTileset).tileCount := by
  induction ts generalizing g i with
  | nil => simp at h
  | cons t rest ih =>
    cases i with
    | zero =>
      have hne : rest ≠ [] := by
        intro hr
        rw [hr] at h
        simp at h
      have h0 := firstGidEntries_fst_getD_zero rest (g + t.tileCount) hne
      simp [firstGidEntries] at h0 ⊢
      exact h0
    | succ j =>
      have hj : j + 1 < rest.length := by
        simpa [Nat.succ_lt_succ_iff] using h
      have h1 := ih (g + t.tileCount) j hj
      simp [firstGidEntries] at h1 ⊢
      exact h1

theorem firstGidEntries_snd (ts : List Tileset) (g : Nat) :
    (firstGidEntries ts g).map Prod.snd = ts.map Tileset.id := by
  induction ts generalizing g with
  | nil => simp [firstGidEntries]
  | cons t rest ih => simp [firstGidEntries, ih]

/-- C2: the firstGid values are assigned to the tilesets in map order as a
running counter starting at 1, each subsequent firstGid equal to the
previous one plus the previous tileset's tile count, every tileset is
registered with the GID mapper under its firstGid, and the `layers` table
is emitted with the fully registered mapper (registration precedes every
layer). -/
theorem C2_firstGids (rel : String → String) (appv : String) (m0 : GidMapper)
    (map : Map) :
    (finalGidMapper map m0).entries = firstGidEntries map.tilesets 1
    ∧ (finalGidMapper map m0).entries.map Prod.snd = map.tilesets.map Tileset.id
    ∧ (map.tilesets ≠ [] →
        ((finalGidMapper map m0).entries.map Prod.fst).getD 0 0 = 1)
    ∧ (∀ i, i + 1 < map.tilesets.length →
        ((finalGidMapper map m0).entries.map Prod.fst).getD (i + 1) 0 =
          ((finalGidMapper map m0).entries.map Prod.fst).getD i 0 +
            (map.tilesets.getD i emptyTileset).tileCount)
    ∧ Item.tbl "layers" (writeLayers rel (finalGidMapper map m0) map.layers 1)
        ∈ mapItems rel appv m0 map := by
  have hent : (finalGidMapper map m0).entries = firstGidEntries map.tilesets 1 := by
    simp [finalGidMapper, registerTilesets_entries, GidMapper.clear]
  refine ⟨hent, ?_, ?_, ?_, ?_⟩
  · rw [hent]
    exact firstGidEntries_snd map.tilesets 1
  · intro h
    rw [hent]
    exact firstGidEntries_fst_getD_zero map.tilesets 1 h
  · intro i hi
    rw [hent]
    exact firstGidEntries_fst_getD_succ map.tilesets 1 i hi
  · simp [mapItems]

/-- An orthogonal base map with no content. -/
def baseMap : Map :=
  { orientation := Orientation.Orthogonal, width := 2, height := 1,
    tileWidth := 32, tileHeight := 32, hexSideLength := 0,
    staggerAxis := StaggerAxis.X, staggerIndex := StaggerIndex.Odd,
    backgroundColor := ⟨false, 0, 0, 0, 255, ""⟩, nextObjectId := 1,
    properties := ⟨[]⟩, tilesets := [], layers := [] }

/-- A map with two tilesets of tile counts 2 and 3. -/
def mapW : Map :=
  { baseMap with
    tilesets :=
      [{ emptyTileset with id := 1, tiles := [emptyTile, emptyTile] },
       { emptyTileset with id := 2, tiles := [emptyTile, emptyTile, emptyTile] }] }

/-- C2 witness: on `mapW` the registered firstGids are 1 and 3 =
1 + tileCount of the first tileset. -/
theorem C2_firstGids_witness :
    ((finalGidMapper mapW gm0).entries.map Prod.fst).getD 0 0 = 1
    ∧ ((finalGidMapper mapW gm0).entries.map Prod.fst).getD (0 + 1) 0 =
        ((finalGidMapper mapW gm0).entries.map Prod.fst).getD 0 0 +
          (mapW.tilesets.getD 0 emptyTileset).tileCount :=
  ⟨(C2_firstGids relc "0.11" gm0 mapW).2.2.1 (by decide),
   (C2_firstGids relc "0.11" gm0 mapW).2.2.2.1 0 (by decide)⟩

/-! ## C3 -/

/-- C3: a tile appears in the emitted `tiles` sub-table exactly when it has
non-empty properties, a non-empty image source, an embedded object group,
a non-empty animation sequence, a terrain word different from the unset
sentinel `0xFFFFFFFF`, or a terrain probability different from the unset
sentinel `-1`; the `tiles` table of a tileset consists precisely of the
entries of the tiles passing that filter, in local-index order. -/
theorem C3_includeTile :
    (∀ t : Tile, includeTile t = true ↔
      (t.properties.pairs ≠ [] ∨ t.imageSource ≠ "" ∨
       t.objectGroup.isSome = true ∨ t.frames ≠ [] ∨
       t.terrain ≠ 0xFFFFFFFF ∨ t.terrainProbability ≠ -1))
    ∧ (∀ (rel : String → String) (m : GidMapper) (ts : Tileset),
        findTbl "tiles" (tilesetBody rel m ts) =
          some ((ts.tiles.enum.filter (fun p => includeTile p.2)).map
            (fun p => tileItem rel m p.1 p.2))) := by
  constructor
  · intro t
    simp only [includeTile, Properties.isEmpty, Tile.isAnimated]
    split_ifs <;> simp_all
  · intro rel m ts
    simp only [tilesetBody, findTbl_append, writeProperties, tilesItems]
    split_ifs <;> simp [findTbl]

/-! ## C4 -/

/-- The cell predicate as the claim states it: the tile the cell itself
references (in the tileset identified by the cell's tileset identity, among
the map's tilesets) carries non-empty properties. -/
def specSourceTileHasProperties (tilesets : List Tileset) (tl : TileLayer)
    (x y : Nat) : Bool :=
  match (tl.cellAt x y : Option CellRef) with
  | none => false
  | some r =>
    match tilesets.find? (fun ts => ts.id == r.tilesetId) with
    | some ts => !(ts.tileAt r.tileId).properties.isEmpty
    | none => false

/-- The quoted keys of the entries of the `specialtiles` table of a layer
(empty when the table is absent). -/
def specialKeys (items : List Item) : List String :=
  quotedKeys ((findTbl "specialtiles" items).getD [])

/-- A tileset (identity 10) whose single tile has non-empty properties. -/
def tsA : Tileset :=
  { emptyTileset with
    id := 10
    tiles := [{ emptyTile with properties := ⟨[("k", "v")]⟩ }] }

/-- A tileset (identity 11) whose single tile has empty properties. -/
def tsB : Tileset :=
  { emptyTileset with
    id := 11
    tiles := [emptyTile] }

/-- A 2×1 layer whose first cell references `tsA` (propertied tile) and
whose second cell references `tsB` (unpropertied tile); both tilesets are
in the used-tileset set. -/
def tlC4 : TileLayer :=
  { name := "L", x := 0, y := 0, width := 2, height := 1,
    visible := true, opacity := 1, properties := ⟨[]⟩,
    cells := [[some ⟨10, 0⟩, some ⟨11, 0⟩]],
    usedTilesets := [tsA, tsB] }

/-- A GID mapper with `tsA` and `tsB` registered. -/
def mC4 : GidMapper := ⟨[(1, 10), (2, 11)]⟩

/-- C4 counterexample: on `tlC4` the cell at row 1, column 2 references a
tile with empty properties, yet the emitted `specialtiles` table carries an
entry for it ("y = 1, x = 2") — the scan checks the tile at the cell's
local index in every used tileset, not in the cell's own tileset, so the
propertied tile of `tsA` triggers the entry.  The claim's "exactly those
grid cells whose source tile carries non-empty properties" is false. -/
theorem C4_cex :
    specSourceTileHasProperties [tsA, tsB] tlC4 1 0 = false
    ∧ specialKeys (tileLayerItems relc mC4 1 tlC4) =
        ["y = 1, x = 1", "y = 1, x = 2"] := by
  constructor
  · decide
  · decide

/-- C4 as amended: the `specialtiles` table is present exactly when the
scan produces at least one entry and then consists of those entries; an
entry is produced for a cell exactly when the cell is non-empty and *some*
tileset of the layer's used-tileset iteration order has a tile with
non-empty properties at index `tileId - 1` (the cell's tileset-relative id
minus one) — for a layer using a single tileset this is the cell's own
source tile, but with several used tilesets it need not be; entries are
scanned row-major and keyed `"y = R, x = C"` with the cell's
tileset-relative flattened id; the table is written after the header and
before the dense `data` table. -/
theorem C4_specialtiles (rel : String → String) (m : GidMapper) (prio : Nat)
    (tl : TileLayer) :
    (findTbl "specialtiles" (tileLayerItems rel m prio tl) =
      if (specialItems m tl).isEmpty then none else some (specialItems m tl))
    ∧ (∀ y x, specialEntry m tl y x =
        if tl.usedTilesets.any (fun ts =>
             decide (0 < m.cellToGidOrigin (tl.cellAt x y)) &&
             !(ts.tileAt (m.cellToGidOrigin (tl.cellAt x y) - 1)).properties.isEmpty)
        then some (Item.qtbl (s!"y = {y + 1}, x = {x + 1}")
               [Item.kv "id" (.i (m.cellToGidOrigin (tl.cellAt x y)))])
        else none)
    ∧ specialItems m tl =
        (List.range tl.height).flatMap
          (fun y => (List.range tl.width).filterMap (fun x => specialEntry m tl y x))
    ∧ tileLayerItems rel m prio tl =
        tileLayerHeader rel prio tl ++ specialPart m tl ++ [dataPart m tl]
    ∧ findTbl "specialtiles" (tileLayerHeader rel prio tl) = none
    ∧ findTbl "data" (tileLayerHeader rel prio tl) = none := by
  refine ⟨?_, ?_, rfl, rfl, ?_, ?_⟩
  · simp only [tileLayerItems, tileLayerHeader, findTbl_append, imagePart,
      specialPart, writeProperties, dataPart]
    repeat' split
    all_goals simp_all [findTbl]
  · intro y x
    simp only [specialEntry]
    cases h : tl.usedTilesets.find? (fun ts =>
        decide (0 < m.cellToGidOrigin (tl.cellAt x y)) &&
        !(ts.tileAt (m.cellToGidOrigin (tl.cellAt x y) - 1)).properties.isEmpty) with
    | none =>
      rw [if_neg]
      intro hany
      rw [List.any_eq_true] at hany
      obtain ⟨ts, hmem, hp⟩ := hany
      exact absurd hp (by simpa using List.find?_eq_none.mp h ts hmem)
    | some ts' =>
      have hp := List.find?_some h
      have hm := List.mem_of_find?_eq_some h
      rw [if_pos]
      rw [List.any_eq_true]
      exact ⟨ts', hm, hp⟩
  · simp only [tileLayerHeader, findTbl_append, imagePart, writeProperties]
    repeat' split
    all_goals simp [findTbl]
  · simp only [tileLayerHeader, findTbl_append, imagePart, writeProperties]
    repeat' split
    all_goals simp [findTbl]

/-! ## C5 -/

/-- A tile with empty properties that is still included in the output
because it has an image source. -/
def tileC5 : Tile := { emptyTile with imageSource := "a.png" }

/-- A tileset holding only `tileC5`. -/
def tsC5 : Tileset := { emptyTileset with id := 7, tiles := [tileC5] }

/-- A polygon object used to locate the `properties` table relative to the
polygon sub-table. -/
def oC5 : MapObject :=
  { baseObject with
    shape := Shape.Polygon
    polygon := [(0, 0), (1, 1)] }

/-- C5 counterexample: the tile `tileC5` is serialized (it passes
`includeTile` through its image source), yet its emitted sub-table contains
no `properties` table — `writeTileset` writes tile properties only when
they are non-empty; moreover, for a polygon map object the `properties`
table is emitted *after* the nested polygon sub-table (positions 10 and 9),
not before the entity's nested structural tables. -/
theorem C5_cex :
    tilesItems relc gm0 tsC5 = [tileItem relc gm0 0 tileC5]
    ∧ hasPropsTbl (itemsOf (tileItem relc gm0 0 tileC5)) = false
    ∧ tblIdx "polygon" (mapObjectItems relc gm0 oC5) = some 9
    ∧ tblIdx "properties" (mapObjectItems relc gm0 oC5) = some 10 := by
  refine ⟨rfl, by decide, by decide, by decide⟩

/-- C5 as amended: a (possibly empty) `properties` sub-table is always
emitted for the map, every tileset, every terrain, every tile layer, every
object group, every image layer and every map object; for a tile it is
emitted exactly when the tile's properties are non-empty; and it is the
last entry of a map object's table (in particular it follows the
polygon/polyline sub-table) rather than preceding the nested structural
tables. -/
theorem C5_properties :
    (∀ (rel : String → String) (appv : String) (m0 : GidMapper) (map : Map),
       writeProperties map.properties ∈ mapItems rel appv m0 map)
    ∧ (∀ (rel : String → String) (m : GidMapper) (ts : Tileset),
       writeProperties ts.properties ∈ tilesetBody rel m ts)
    ∧ (∀ t : Terrain, writeProperties t.properties ∈ itemsOf (terrainItem t))
    ∧ (∀ (rel : String → String) (m : GidMapper) (prio : Nat) (tl : TileLayer),
       writeProperties tl.properties ∈ tileLayerItems rel m prio tl)
    ∧ (∀ (rel : String → String) (m : GidMapper) (prio : Nat) (og : ObjectGroup),
       writeProperties og.properties ∈ objectGroupItems rel m prio og)
    ∧ (∀ (rel : String → String) (prio : Nat) (il : ImageLayer),
       writeProperties il.properties ∈ imageLayerItems rel prio il)
    ∧ (∀ (rel : String → String) (m : GidMapper) (o : MapObject),
       (mapObjectItems rel m o).getLast? = some (writeProperties o.properties))
    ∧ (∀ (rel : String → String) (m : GidMapper) (i : Nat) (t : Tile),
       hasPropsTbl (itemsOf (tileItem rel m i t)) = !t.properties.isEmpty) := by
  refine ⟨?_, ?_, ?_, ?_, ?_, ?_, ?_, ?_⟩
  · intro rel appv m0 map
    simp [mapItems]
  · intro rel m ts
    simp [tilesetBody]
  · intro t
    simp [terrainItem, itemsOf]
  · intro rel m prio tl
    simp [tileLayerItems, tileLayerHeader]
  · intro rel m prio og
    simp [objectGroupItems]
  · intro rel prio il
    simp [imageLayerItems]
  · intro rel m o
    unfold mapObjectItems
    rw [List.getLast?_append_of_ne_nil _ (by simp)]
    rfl
  · intro rel m i t
    cases hog : t.objectGroup <;>
      simp [tileItem, itemsOf, hasPropsTbl, writeProperties, hog,
        List.any_append, writeObjectGroup, frameItem] <;>
      split_ifs <;> simp_all

/-! ## C6 -/

theorem coordToInt_eq_floor (c : ℚ) : coordToInt c = ⌊c⌋ := by
  unfold coordToInt
  exact Rat.floor_def.symm

/-- C6: a polygon (resp. polyline) map object with a non-empty point
sequence gets a `polygon` (resp. `polyline`) sub-table that is the flat
positional sequence x0, y0, x1, y1, ... of its points in order, each
coordinate the integer truncation of the source coordinate (the
nonnegativity hypothesis confines the statement to the inputs on which the
C++ cast to `unsigned int` is defined, where truncation and floor
coincide). -/
theorem C6_polygon (rel : String → String) (m : GidMapper) (o : MapObject)
    (hne : o.polygon ≠ [])
    (_hnn : ∀ p ∈ o.polygon, 0 ≤ p.1 ∧ 0 ≤ p.2) :
    (o.shape = Shape.Polygon →
      findTbl "polygon" (mapObjectItems rel m o) =
        some (o.polygon.flatMap (fun p =>
          [Item.pos (.i ⌊p.1⌋), Item.pos (.i ⌊p.2⌋)])))
    ∧ (o.shape = Shape.Polyline →
      findTbl "polyline" (mapObjectItems rel m o) =
        some (o.polygon.flatMap (fun p =>
          [Item.pos (.i ⌊p.1⌋), Item.pos (.i ⌊p.2⌋)]))) := by
  constructor <;> intro hs <;>
    simp only [mapObjectItems, findTbl_append, writeProperties, hs,
      polygonItems, coordToInt_eq_floor] <;>
    split_ifs <;> simp_all [findTbl]

/-- The polygon object of the spec's scenario: points (0,0), (5,0), (5,5). -/
def oC6 : MapObject :=
  { baseObject with
    shape := Shape.Polygon
    polygon := [(0, 0), (5, 0), (5, 5)] }

/-- C6 witness: the scenario object's `polygon` sub-table is exactly the
flat sequence 0, 0, 5, 0, 5, 5. -/
theorem C6_polygon_witness :
    findTbl "polygon" (mapObjectItems relc gm0 oC6) =
      some [Item.pos (.i 0), Item.pos (.i 0), Item.pos (.i 5),
            Item.pos (.i 0), Item.pos (.i 5), Item.pos (.i 5)] := by
  have h := (C6_polygon relc gm0 oC6 (by decide) (by decide)).1 rfl
  rw [h]
  norm_num [oC6, baseObject]

/-! ## C7 -/

/-- The rectangle object of the spec's scenario: position (10, 20), size
(30, 40), no rotation, no cell reference. -/
def oC7 : MapObject :=
  { baseObject with
    x := 10
    y := 20
    width := 30
    height := 40 }

/-- C7: a map object's table carries a `gid` key exactly when the object
references a non-empty cell; in particular the scenario rectangle at
(10, 20) of size (30, 40) with no rotation and no cell is emitted with
shape "rectangle", its position, size and zero rotation, and no `gid`
key. -/
theorem C7_gid :
    (∀ (rel : String → String) (m : GidMapper) (o : MapObject),
       hasKey "gid" (mapObjectItems rel m o) = (o.cell : Option CellRef).isSome)
    ∧ mapObjectItems relc gm0 oC7 =
        [Item.kv "name" (.s ""), Item.kv "type" (.s ""),
         Item.kv "shape" (.s "rectangle"),
         Item.kv "x" (.q 10), Item.kv "y" (.q 20),
         Item.kv "width" (.q 30), Item.kv "height" (.q 40),
         Item.kv "rotation" (.q 0),
         Item.kv "visible" (.b true),
         Item.tbl "properties" []] := by
  constructor
  · intro rel m o
    cases hc : (o.cell : Option CellRef) <;>
      simp [mapObjectItems, hasKey, List.any_append, Cell.isEmpty, hc,
        writeProperties]
  · rfl

/-! ## C8 -/

/-- An image layer referencing an absolute image path. -/
def ilC8 : ImageLayer :=
  { name := "bg", x := 0, y := 0, visible := true, opacity := 1,
    imageSource := "/a/img.png",
    transparentColor := ⟨false, 0, 0, 0, 255, ""⟩, properties := ⟨[]⟩ }

/-- A map holding only `ilC8`. -/
def mapC8 : Map := { baseMap with layers := [Layer.image ilC8] }

/-- The path rewriter of a destination in directory `/a`: Qt's
`QDir("/a").relativeFilePath` maps `/a/img.png` to `img.png`. -/
def relDirA : String → String := fun s => if s = "/a/img.png" then "img.png" else s

/-- The path rewriter of a destination in directory `/a/b`: Qt's
`QDir("/a/b").relativeFilePath` maps `/a/img.png` to `../img.png`. -/
def relDirB : String → String :=
  fun s => if s = "/a/img.png" then "../img.png" else s

/-- A fully successful I/O outcome. -/
def ioOk : IOOutcome := ⟨true, none, true, ""⟩

/-- A fresh exporter instance state. -/
def st0 : PluginState := ⟨"", gm0⟩

set_option maxRecDepth 4000 in
/-- C8 counterexample: exporting `mapC8` to two destinations in different
directories (`/a` and `/a/b`) yields different bytes — the image layer's
path is rewritten relative to each destination's directory (`mMapDir` is
taken from the output file name), so the two documents differ. -/
theorem C8_cex :
    (LuaPlugin.write relDirA "0.11" ioOk st0 mapC8 none).2.2 ≠
      (LuaPlugin.write relDirB "0.11" ioOk st0 mapC8 none).2.2 := by
  decide

/-- C8 as amended: for a fixed destination directory (a fixed path
rewriter) the output is a deterministic function of the map alone — the
success flag and the written content do not depend on the exporter
instance's prior state (the member GID mapper is cleared at the start of
every export), and re-exporting the same map with the same instance and
destination reproduces the file content byte for byte; only destinations
in different directories can differ, through the relative-path rewriting
refuted above. -/
theorem C8_deterministic :
    (∀ (rel : String → String) (appv : String) (io : IOOutcome) (map : Map)
       (prev : Option String) (st1 st2 : PluginState),
       (LuaPlugin.write rel appv io st1 map prev).1 =
         (LuaPlugin.write rel appv io st2 map prev).1
       ∧ (LuaPlugin.write rel appv io st1 map prev).2.2 =
           (LuaPlugin.write rel appv io st2 map prev).2.2)
    ∧ (∀ (rel : String → String) (appv : String) (io : IOOutcome) (map : Map)
       (prev : Option String) (st : PluginState),
       io.openOk = true → io.writeError = none → io.commitOk = true →
       (LuaPlugin.write rel appv io
           (LuaPlugin.write rel appv io st map prev).2.1 map
           (LuaPlugin.write rel appv io st map prev).2.2).2.2 =
         (LuaPlugin.write rel appv io st map prev).2.2) := by
  have hm : ∀ (rel : String → String) (appv : String) (m1 m2 : GidMapper)
      (map : Map), mapItems rel appv m1 map = mapItems rel appv m2 map :=
    fun _ _ _ _ _ => rfl
  have hf : ∀ (map : Map) (m1 m2 : GidMapper),
      finalGidMapper map m1 = finalGidMapper map m2 := fun _ _ _ => rfl
  constructor
  · intro rel appv io map prev st1 st2
    simp only [LuaPlugin.write]
    cases io.openOk <;> cases hw : io.writeError <;> cases io.commitOk <;>
      simp [hw, hm rel appv st1.mGidMapper st2.mGidMapper map,
        hf map st1.mGidMapper st2.mGidMapper]
  · intro rel appv io map prev st ho hw hc
    simp only [LuaPlugin.write, ho, hw, hc]
    simp [hm rel appv (finalGidMapper map st.mGidMapper) st.mGidMapper map]

/-- C8 witness: a successful export of `mapC8` re-run on the resulting
instance state reproduces the same file content. -/
theorem C8_deterministic_witness :
    (LuaPlugin.write relDirA "0.11" ioOk
        (LuaPlugin.write relDirA "0.11" ioOk st0 mapC8 none).2.1 mapC8
        (LuaPlugin.write relDirA "0.11" ioOk st0 mapC8 none).2.2).2.2 =
      (LuaPlugin.write relDirA "0.11" ioOk st0 mapC8 none).2.2 :=
  C8_deterministic.2 relDirA "0.11" ioOk mapC8 none st0 rfl rfl rfl

/-! ## C9 -/

/-- C9: `write` either succeeds, committing the fully rendered document as
the new content of the destination (replacing any previous file), or fails
leaving the destination exactly as it was, with a non-empty human-readable
message in `mError` (given that the device reports non-empty error
strings). -/
theorem C9_write (rel : String → String) (appv : String) (io : IOOutcome)
    (st : PluginState) (map : Map) (prev : Option String)
    (hw : ∀ e, io.writeError = some e → e ≠ "")
    (hc : io.commitErrorString ≠ "") :
    ((LuaPlugin.write rel appv io st map prev).1 = true →
      (LuaPlugin.write rel appv io st map prev).2.2 =
        some (renderDocument (mapItems rel appv st.mGidMapper map)))
    ∧ ((LuaPlugin.write rel appv io st map prev).1 = false →
      (LuaPlugin.write rel appv io st map prev).2.2 = prev
      ∧ (LuaPlugin.write rel appv io st map prev).2.1.mError ≠ "") := by
  simp only [LuaPlugin.write]
  cases ho : io.openOk <;> cases hwe : io.writeError <;> cases hco : io.commitOk <;>
    simp_all

/-- An I/O outcome whose atomic commit fails with a device message. -/
def ioC9 : IOOutcome := ⟨true, none, false, "disk full"⟩

/-- C9 witness: a failed commit leaves no file at a fresh destination and
sets a non-empty error message. -/
theorem C9_write_witness :
    (LuaPlugin.write relc "0.11" ioC9 st0 baseMap none).2.2 = none
    ∧ (LuaPlugin.write relc "0.11" ioC9 st0 baseMap none).2.1.mError ≠ "" :=
  (C9_write relc "0.11" ioC9 st0 baseMap none
    (fun e he => by simp [ioC9] at he) (by decide)).2 rfl

end TiledLua
